import Mathlib

/-!
Verification development for the `webgl_math_shaders` repository.

The repository is a browser shader playground: a fragment-shader source
templater (`generateFragmentShader`), a WebGL pipeline builder
(`buildShader`), a live render loop (`render`), and a video-export
controller (`setupExport` / `startExport` / `captureFrames` /
`finishExport`).

Three copies of the program exist in the repository: `src/shader.js`
(namespace `ShaderJS` below) and two unnamed files
`src/unnamed/part_000` / `src/unnamed/part_001` (namespaces `Part000`
and `Part001`).  The two unnamed parts carry the export controller; the
shader-source strings of each file are transcribed literally (braces in
the GLSL text are written with `\x7b` / `\x7d` escapes).

The stateful parts (export controller, render loop, pipeline builder)
are embedded as explicit state-passing functions over structures that
mirror the JavaScript object fields, with wall-clock instants passed in
as parameters and GPU / DOM effects reified as command lists.
-/

set_option maxRecDepth 100000

set_option maxHeartbeats 1600000

namespace ShaderJS

/-- The shared GLSL header string of `generateFragmentShader` in
`src/shader.js` (lines 16-34). -/
def header : String :=
  "#version 300 es\nprecision highp float;\n\nuniform vec2 iResolution;\nuniform float iTime;\nuniform float iSpeed;\nuniform float iZoom;\nuniform float iWarpStrength;\nuniform float iGlowSharpness;\nuniform float iColorPhase;\nuniform float iIterations;\n\nout vec4 fragColor;\n\nvoid main() \x7b\n    vec2 p = (gl_FragCoord.xy * 2.0 - iResolution) / iResolution.y / iZoom;\n    vec4 col = vec4(0.0);\n    float t = iTime * iSpeed;\n"

/-- The `rocaille` case's `loopCode` literal in `src/shader.js`. -/
def rocailleBody : String :=
  "\n    for (float i = 0.0; i < iIterations; i++) \x7b\n        vec2 v = p;\n        for (float f = 1.0; f < 10.0; f++) \x7b\n            v += sin(v.yx * f + i + iResolution + t) / (f * iWarpStrength);\n        \x7d\n        col += (cos(i + iColorPhase + vec4(0.0, 1.0, 2.0, 3.0)) + 1.0) / 6.0 / pow(length(v), iGlowSharpness);\n    \x7d\n"

/-- The `liquid` case's `loopCode` literal in `src/shader.js`. -/
def liquidBody : String :=
  "\n    for (float i = 0.0; i < iIterations; i++) \x7b\n        vec2 v = p;\n        // Single frequency wave instead of multi-frequency\n        v += sin(v.yx * 3.0 + i + t) * 0.5 / iWarpStrength;\n        v += sin(v.yx * 1.5 + i + t) * 0.3 / iWarpStrength;\n        col += (cos(i + iColorPhase + vec4(0.0, 1.0, 2.0, 3.0)) + 1.0) / 6.0 / pow(length(v), iGlowSharpness);\n    \x7d\n"

/-- The `electric` case's `loopCode` literal in `src/shader.js`. -/
def electricBody : String :=
  "\n    for (float i = 0.0; i < iIterations; i++) \x7b\n        vec2 v = p;\n        for (float f = 1.0; f < 10.0; f++) \x7b\n            v += sin(v.yx * f + i + iResolution + t) / (f * iWarpStrength);\n        \x7d\n        // Manhattan distance instead of Euclidean\n        float dist = abs(v.x) + abs(v.y);\n        col += (cos(i + iColorPhase + vec4(0.0, 1.0, 2.0, 3.0)) + 1.0) / 6.0 / pow(dist, iGlowSharpness);\n    \x7d\n"

/-- The `kaleidoscope` case's `loopCode` literal in `src/shader.js`. -/
def kaleidoscopeBody : String :=
  "\n    for (float i = 0.0; i < iIterations; i++) \x7b\n        vec2 v = abs(p); // Force symmetry\n        for (float f = 1.0; f < 10.0; f++) \x7b\n            v = abs(v); // Maintain symmetry each iteration\n            v += sin(v.yx * f + i + iResolution + t) / (f * iWarpStrength);\n        \x7d\n        col += (cos(i + iColorPhase + vec4(0.0, 1.0, 2.0, 3.0)) + 1.0) / 6.0 / pow(length(v), iGlowSharpness);\n    \x7d\n"

/-- The `alien` case's `loopCode` literal in `src/shader.js`. -/
def alienBody : String :=
  "\n    for (float i = 0.0; i < iIterations; i++) \x7b\n        vec2 v = p;\n        for (float f = 1.0; f < 10.0; f++) \x7b\n            v += sin(v.yx * f + i + iResolution + t) / (f * iWarpStrength);\n        \x7d\n        // IQ palette: a + b*cos(6.28318*(c*t+d))\n        vec3 pal = 0.5 + 0.5 * cos(6.28318 * (0.5 * i + iColorPhase + vec3(0.0, 0.33, 0.67)));\n        col.rgb += pal / pow(length(v), iGlowSharpness) / 6.0;\n        col.a += 1.0 / pow(length(v), iGlowSharpness) / 6.0;\n    \x7d\n"

/-- The shared GLSL footer string of `generateFragmentShader` in
`src/shader.js` (lines 116-119): tone mapping written straight into
`fragColor`. -/
def footer : String :=
  "\n    fragColor = tanh(col * col);\n\x7d\n"

/-- `generateFragmentShader` of `src/shader.js` (lines 14-122): a switch
on the variation tag choosing `loopCode` (the default case leaves
`loopCode` undefined, so `loopCode || ''` yields the empty string),
followed by `header + loopCode + footer`. -/
def generateFragmentShader (variation : String) : String :=
  let loopCode : String :=
    if variation = "rocaille" then rocailleBody
    else if variation = "liquid" then liquidBody
    else if variation = "electric" then electricBody
    else if variation = "kaleidoscope" then kaleidoscopeBody
    else if variation = "alien" then alienBody
    else ""
  header ++ loopCode ++ footer

end ShaderJS

namespace Part000

/-- The shared GLSL header string of `generateFragmentShader` in
`src/unnamed/part_000` (lines 9-27). -/
def header : String :=
  "#version 300 es\nprecision highp float;\n\nuniform vec2 iResolution;\nuniform float iTime;\nuniform float iSpeed;\nuniform float iZoom;\nuniform float iWarpStrength;\nuniform float iGlowSharpness;\nuniform float iColorPhase;\nuniform float iIterations;\n\nout vec4 fragColor;\n\nvoid main() \x7b\n    vec2 p = (gl_FragCoord.xy * 2.0 - iResolution) / iResolution.y / iZoom;\n    vec4 col = vec4(0.0);\n    float t = iTime * iSpeed;\n"

/-- The `rocaille` case's `loopCode` literal in `src/unnamed/part_000`. -/
def rocailleBody : String :=
  "\n    for (float i = 0.0; i < iIterations; i++) \x7b\n        vec2 v = p;\n        for (float f = 1.0; f < 10.0; f++) \x7b\n            v += sin(v.yx * f + i + iResolution + t) / (f * iWarpStrength);\n        \x7d\n        col += (cos(i + iColorPhase + vec4(0.0, 1.0, 2.0, 3.0)) + 1.0) / 6.0 / pow(length(v), iGlowSharpness);\n    \x7d\n"

/-- The `liquid` case's `loopCode` literal in `src/unnamed/part_000`. -/
def liquidBody : String :=
  "\n    for (float i = 0.0; i < iIterations; i++) \x7b\n        vec2 v = p;\n        v += sin(v.yx * 3.0 + i + t) * 0.5 / iWarpStrength;\n        v += sin(v.yx * 1.5 + i + t) * 0.3 / iWarpStrength;\n        col += (cos(i + iColorPhase + vec4(0.0, 1.0, 2.0, 3.0)) + 1.0) / 6.0 / pow(length(v), iGlowSharpness);\n    \x7d\n"

/-- The `electric` case's `loopCode` literal in `src/unnamed/part_000`. -/
def electricBody : String :=
  "\n    for (float i = 0.0; i < iIterations; i++) \x7b\n        vec2 v = p;\n        for (float f = 1.0; f < 10.0; f++) \x7b\n            v += sin(v.yx * f + i + iResolution + t) / (f * iWarpStrength);\n        \x7d\n        float dist = abs(v.x) + abs(v.y);\n        col += (cos(i + iColorPhase + vec4(0.0, 1.0, 2.0, 3.0)) + 1.0) / 6.0 / pow(dist, iGlowSharpness);\n    \x7d\n"

/-- The `kaleidoscope` case's `loopCode` literal in `src/unnamed/part_000`. -/
def kaleidoscopeBody : String :=
  "\n    for (float i = 0.0; i < iIterations; i++) \x7b\n        vec2 v = abs(p);\n        for (float f = 1.0; f < 10.0; f++) \x7b\n            v = abs(v);\n            v += sin(v.yx * f + i + iResolution + t) / (f * iWarpStrength);\n        \x7d\n        col += (cos(i + iColorPhase + vec4(0.0, 1.0, 2.0, 3.0)) + 1.0) / 6.0 / pow(length(v), iGlowSharpness);\n    \x7d\n"

/-- The `alien` case's `loopCode` literal in `src/unnamed/part_000`. -/
def alienBody : String :=
  "\n    for (float i = 0.0; i < iIterations; i++) \x7b\n        vec2 v = p;\n        for (float f = 1.0; f < 10.0; f++) \x7b\n            v += sin(v.yx * f + i + iResolution + t) / (f * iWarpStrength);\n        \x7d\n        vec3 pal = 0.5 + 0.5 * cos(6.28318 * (0.5 * i + iColorPhase + vec3(0.0, 0.33, 0.67)));\n        col.rgb += pal / pow(length(v), iGlowSharpness) / 6.0;\n        col.a += 1.0 / pow(length(v), iGlowSharpness) / 6.0;\n    \x7d\n"

/-- The shared GLSL footer string of `generateFragmentShader` in
`src/unnamed/part_000` (lines 99-103): tone mapping with alpha forced
to 1.0. -/
def footer : String :=
  "\n    vec4 result = tanh(col * col);\n    fragColor = vec4(result.rgb, 1.0);\n\x7d\n"

/-- `generateFragmentShader` of `src/unnamed/part_000` (lines 8-106). -/
def generateFragmentShader (variation : String) : String :=
  let loopCode : String :=
    if variation = "rocaille" then rocailleBody
    else if variation = "liquid" then liquidBody
    else if variation = "electric" then electricBody
    else if variation = "kaleidoscope" then kaleidoscopeBody
    else if variation = "alien" then alienBody
    else ""
  header ++ loopCode ++ footer

end Part000

namespace Part001

/-- The shared GLSL header string of `generateFragmentShader` in
`src/unnamed/part_001` (lines 9-27). -/
def header : String :=
  "#version 300 es\nprecision highp float;\n\nuniform vec2 iResolution;\nuniform float iTime;\nuniform float iSpeed;\nuniform float iZoom;\nuniform float iWarpStrength;\nuniform float iGlowSharpness;\nuniform float iColorPhase;\nuniform float iIterations;\n\nout vec4 fragColor;\n\nvoid main() \x7b\n    vec2 p = (gl_FragCoord.xy * 2.0 - iResolution) / iResolution.y / iZoom;\n    vec4 col = vec4(0.0);\n    float t = iTime * iSpeed;\n"

/-- The `rocaille` case's `loopCode` literal in `src/unnamed/part_001`. -/
def rocailleBody : String :=
  "\n    for (float i = 0.0; i < iIterations; i++) \x7b\n        vec2 v = p;\n        for (float f = 1.0; f < 10.0; f++) \x7b\n            v += sin(v.yx * f + i + iResolution + t) / (f * iWarpStrength);\n        \x7d\n        col += (cos(i + iColorPhase + vec4(0.0, 1.0, 2.0, 3.0)) + 1.0) / 6.0 / pow(length(v), iGlowSharpness);\n    \x7d\n"

/-- The `liquid` case's `loopCode` literal in `src/unnamed/part_001`. -/
def liquidBody : String :=
  "\n    for (float i = 0.0; i < iIterations; i++) \x7b\n        vec2 v = p;\n        v += sin(v.yx * 3.0 + i + t) * 0.5 / iWarpStrength;\n        v += sin(v.yx * 1.5 + i + t) * 0.3 / iWarpStrength;\n        col += (cos(i + iColorPhase + vec4(0.0, 1.0, 2.0, 3.0)) + 1.0) / 6.0 / pow(length(v), iGlowSharpness);\n    \x7d\n"

/-- The `electric` case's `loopCode` literal in `src/unnamed/part_001`. -/
def electricBody : String :=
  "\n    for (float i = 0.0; i < iIterations; i++) \x7b\n        vec2 v = p;\n        for (float f = 1.0; f < 10.0; f++) \x7b\n            v += sin(v.yx * f + i + iResolution + t) / (f * iWarpStrength);\n        \x7d\n        float dist = abs(v.x) + abs(v.y);\n        col += (cos(i + iColorPhase + vec4(0.0, 1.0, 2.0, 3.0)) + 1.0) / 6.0 / pow(dist, iGlowSharpness);\n    \x7d\n"

/-- The `kaleidoscope` case's `loopCode` literal in `src/unnamed/part_001`. -/
def kaleidoscopeBody : String :=
  "\n    for (float i = 0.0; i < iIterations; i++) \x7b\n        vec2 v = abs(p);\n        for (float f = 1.0; f < 10.0; f++) \x7b\n            v = abs(v);\n            v += sin(v.yx * f + i + iResolution + t) / (f * iWarpStrength);\n        \x7d\n        col += (cos(i + iColorPhase + vec4(0.0, 1.0, 2.0, 3.0)) + 1.0) / 6.0 / pow(length(v), iGlowSharpness);\n    \x7d\n"

/-- The `alien` case's `loopCode` literal in `src/unnamed/part_001`. -/
def alienBody : String :=
  "\n    for (float i = 0.0; i < iIterations; i++) \x7b\n        vec2 v = p;\n        for (float f = 1.0; f < 10.0; f++) \x7b\n            v += sin(v.yx * f + i + iResolution + t) / (f * iWarpStrength);\n        \x7d\n        vec3 pal = 0.5 + 0.5 * cos(6.28318 * (0.5 * i + iColorPhase + vec3(0.0, 0.33, 0.67)));\n        col.rgb += pal / pow(length(v), iGlowSharpness) / 6.0;\n        col.a += 1.0 / pow(length(v), iGlowSharpness) / 6.0;\n    \x7d\n"

/-- The shared GLSL footer string of `generateFragmentShader` in
`src/unnamed/part_001` (lines 99-103): tone mapping with alpha forced
to 1.0. -/
def footer : String :=
  "\n    vec4 result = tanh(col * col);\n    fragColor = vec4(result.rgb, 1.0);\n\x7d\n"

/-- `generateFragmentShader` of `src/unnamed/part_001` (lines 8-106). -/
def generateFragmentShader (variation : String) : String :=
  let loopCode : String :=
    if variation = "rocaille" then rocailleBody
    else if variation = "liquid" then liquidBody
    else if variation = "electric" then electricBody
    else if variation = "kaleidoscope" then kaleidoscopeBody
    else if variation = "alien" then alienBody
    else ""
  header ++ loopCode ++ footer

end Part001

/-- `leadsWith pat l` is true when `pat` is an initial segment of `l`
(character-by-character comparison). -/
def leadsWith : List Char → List Char → Bool
  | [], _ => true
  | _ :: _, [] => false
  | a :: as, b :: bs => a == b && leadsWith as bs

/-- Number of positions of `l` at which the pattern `pat` starts
(occurrences may overlap; a nonempty pattern never starts at the
position past the end). -/
def countOccur (pat : List Char) : List Char → Nat
  | [] => 0
  | c :: rest => (if leadsWith pat (c :: rest) then 1 else 0) + countOccur pat rest

/-- Number of (possibly overlapping) occurrences of the string `pat`
inside the string `s`. -/
def occurrences (pat s : String) : Nat := countOccur pat.data s.data

/-- The five variation tags handled by the `switch` in every copy of
`generateFragmentShader`. -/
def knownVariations : List String :=
  ["rocaille", "liquid", "electric", "kaleidoscope", "alien"]

/-- The `loopCode` literal that `src/shader.js` selects for a known
variation tag. -/
def variantBodyJS (variation : String) : String :=
  if variation = "rocaille" then ShaderJS.rocailleBody
  else if variation = "liquid" then ShaderJS.liquidBody
  else if variation = "electric" then ShaderJS.electricBody
  else if variation = "kaleidoscope" then ShaderJS.kaleidoscopeBody
  else if variation = "alien" then ShaderJS.alienBody
  else ""

/-- C2: for each of the five variation tags, `generateFragmentShader`
(in `src/shader.js`) returns exactly the concatenation of the shared
header, the tag's own body, and the shared footer; the result contains
exactly one occurrence of the header and of the footer, exactly one
occurrence of the tag's own body, and zero occurrences of every other
variant's body (no cross-variant body leakage). -/
theorem templater_variant_assembly : ∀ t ∈ knownVariations,
    ShaderJS.generateFragmentShader t = ShaderJS.header ++ variantBodyJS t ++ ShaderJS.footer
    ∧ occurrences ShaderJS.header (ShaderJS.generateFragmentShader t) = 1
    ∧ occurrences ShaderJS.footer (ShaderJS.generateFragmentShader t) = 1
    ∧ occurrences (variantBodyJS t) (ShaderJS.generateFragmentShader t) = 1
    ∧ ∀ u ∈ knownVariations, u ≠ t →
        occurrences (variantBodyJS u) (ShaderJS.generateFragmentShader t) = 0 := by
  decide

/-- Witness for C2 at the concrete tag `rocaille` (with the
cross-variant check instantiated at `liquid`). -/
theorem templater_variant_assembly_witness :
    ShaderJS.generateFragmentShader "rocaille" =
      ShaderJS.header ++ variantBodyJS "rocaille" ++ ShaderJS.footer
    ∧ occurrences (variantBodyJS "liquid")
        (ShaderJS.generateFragmentShader "rocaille") = 0 :=
  ⟨(templater_variant_assembly "rocaille" (by decide)).1,
   (templater_variant_assembly "rocaille" (by decide)).2.2.2.2 "liquid"
     (by decide) (by decide)⟩

/-- C3: for every input that is not one of the five known variation
tags, `generateFragmentShader` (in `src/shader.js`) returns the shared
header concatenated with the shared footer — the empty-body silent
degradation of the `default` switch branch, not an error. -/
theorem templater_unknown_tag_fallback (v : String) (h : v ∉ knownVariations) :
    ShaderJS.generateFragmentShader v = ShaderJS.header ++ ShaderJS.footer := by
  simp only [knownVariations, List.mem_cons, List.not_mem_nil, or_false] at h
  push_neg at h
  obtain ⟨h1, h2, h3, h4, h5⟩ := h
  simp only [ShaderJS.generateFragmentShader, if_neg h1, if_neg h2, if_neg h3,
    if_neg h4, if_neg h5]
  rfl

/-- Witness for C3 at the concrete unknown tag `plasma`. -/
theorem templater_unknown_tag_fallback_witness :
    "plasma" ∉ knownVariations
    ∧ ShaderJS.generateFragmentShader "plasma" = ShaderJS.header ++ ShaderJS.footer :=
  ⟨by decide, templater_unknown_tag_fallback "plasma" (by decide)⟩

/-- C10: the templaters of the two unnamed source files are
extensionally equal — `generateFragmentShader` of
`src/unnamed/part_000` and of `src/unnamed/part_001` return the same
string on every input (both files carry byte-identical header, variant
bodies, footer, and dispatch). -/
theorem unnamed_templaters_agree (v : String) :
    Part000.generateFragmentShader v = Part001.generateFragmentShader v := rfl

namespace Playground

/-- The seven user-tunable values held in `this.params` (constructor of
`ShaderPlayground`, `src/unnamed/part_001` lines 122-130).  Numeric
slider values are modelled as rationals. -/
structure Params where
  variation : String
  speed : ℚ
  zoom : ℚ
  warpStrength : ℚ
  glowSharpness : ℚ
  colorPhase : ℚ
  iterations : ℚ

/-- The mutable fields of the `ShaderPlayground` object that the render
loop and the export controller read and write
(`src/unnamed/part_001`): the parameter record, the wall-clock start
mark `this.startTime`, the export-session fields, the canvas pixel
size, and the pieces of DOM state the export path mutates (record
button, status texts, triggered downloads).  Recorded chunks are
modelled as abstract identifiers. -/
structure State where
  params : Params
  startTime : ℚ
  isExporting : Bool
  recordedChunks : List ℕ
  exportFrameCount : ℤ
  currentFrame : ℤ
  canvasWidth : ℚ
  canvasHeight : ℚ
  buttonDisabled : Bool
  buttonRecording : Bool
  recordText : String
  recordInfo : String
  infoActive : Bool
  downloads : List String

/-- GPU calls issued by one invocation of `render` / `captureFrames`,
reified as data.  `requestVideoFrame` stands for
`track.requestFrame()` and `glFinish` for `gl.finish()`. -/
inductive GLCommand where
  | clearColor (r g b a : ℚ)
  | clear
  | uniform2f (name : String) (x y : ℚ)
  | uniform1f (name : String) (x : ℚ)
  | drawArrays
  | glFinish
  | requestVideoFrame

/-- `getLoopDuration` (`src/unnamed/part_001` lines 280-282):
`(2 * Math.PI) / this.params.speed`, one full animation period. -/
noncomputable def getLoopDuration (s : State) : ℝ :=
  (2 * Real.pi) / (s.params.speed : ℝ)

/-- `startExport` (`src/unnamed/part_001` lines 284-338), restricted to
the state it mutates: computes `exportFrameCount =
Math.ceil(loopDuration * fps)` with `fps = 60`, resets the frame
counter and the chunk buffer, raises the exporting flag, and puts the
record button / status texts into their recording shape.  The
`MediaRecorder` construction itself (codec and bitrate negotiation) has
no effect on the modelled fields. -/
noncomputable def startExport (s : State) : State :=
  let frameCount : ℤ := ⌈getLoopDuration s * 60⌉
  { s with
    exportFrameCount := frameCount
    currentFrame := 0
    recordedChunks := []
    isExporting := true
    buttonRecording := true
    buttonDisabled := true
    recordText := "Recording..."
    recordInfo := "0 / " ++ toString frameCount ++ " frames"
    infoActive := true }

/-- The record button's click handler installed by `setupExport`
(`src/unnamed/part_001` lines 274-277): `if (this.isExporting) return;`
then `startExport`. -/
noncomputable def recordClick (s : State) : State :=
  if s.isExporting then s else startExport s

/-- One invocation of `captureFrames` (`src/unnamed/part_001` lines
340-373).  `now` is the ambient wall-clock instant at which the
scheduled callback fires; the source reads no clock, so the parameter
is unused.  When the frame counter has reached the total the recorder
is stopped (no draw, `finishExport` then runs from the recorder's
`onstop` event); otherwise one frame is drawn at the synthetic time
`currentFrame / fps` and the counter and progress texts advance. -/
def captureFramesStep (s : State) (now : ℚ) : State × List GLCommand :=
  if s.exportFrameCount ≤ s.currentFrame then
    (s, [])
  else
    let frameTime : ℚ := (s.currentFrame : ℚ) / 60
    let cmds : List GLCommand :=
      [ GLCommand.clearColor 0 0 0 1
      , GLCommand.clear
      , GLCommand.uniform2f "iResolution" s.canvasWidth s.canvasHeight
      , GLCommand.uniform1f "iTime" frameTime
      , GLCommand.uniform1f "iSpeed" s.params.speed
      , GLCommand.uniform1f "iZoom" s.params.zoom
      , GLCommand.uniform1f "iWarpStrength" s.params.warpStrength
      , GLCommand.uniform1f "iGlowSharpness" s.params.glowSharpness
      , GLCommand.uniform1f "iColorPhase" s.params.colorPhase
      , GLCommand.uniform1f "iIterations" s.params.iterations
      , GLCommand.drawArrays
      , GLCommand.glFinish
      , GLCommand.requestVideoFrame ]
    let nextFrame := s.currentFrame + 1
    let progress : ℤ := round (((nextFrame : ℚ) / (s.exportFrameCount : ℚ)) * 100)
    ({ s with
        currentFrame := nextFrame
        recordText := "Recording " ++ toString progress ++ "%"
        recordInfo := toString nextFrame ++ " / " ++ toString s.exportFrameCount ++ " frames" },
     cmds)

/-- `finishExport` (`src/unnamed/part_001` lines 375-399), run from the
recorder's `onstop` event at wall-clock instant `now`: assembles the
blob and triggers the download, clears the chunk buffer, lowers the
exporting flag, restores the record button and texts, and resets the
wall-clock start mark with `this.startTime = performance.now()`.  (The
3-second timer that later blanks `recordInfo` is outside this step.)
The downloaded file name `shader_<variation>_<Date.now()>.webm` is
modelled by its variation part. -/
def finishExport (s : State) (now : ℚ) : State :=
  { s with
    downloads := ("shader_" ++ s.params.variation) :: s.downloads
    recordedChunks := []
    isExporting := false
    buttonRecording := false
    buttonDisabled := false
    recordText := "Export Video"
    recordInfo := "Download complete!"
    startTime := now }

/-- One invocation of the live driver `render` (`src/unnamed/part_001`
lines 414-438) at wall-clock instant `now`: while `isExporting` it only
reschedules itself (no state change, no GPU call); otherwise it writes
the elapsed-time and parameter uniforms and issues one draw. -/
def renderStep (s : State) (now : ℚ) : State × List GLCommand :=
  if s.isExporting then
    (s, [])
  else
    let time : ℚ := (now - s.startTime) / 1000
    (s,
     [ GLCommand.clearColor 0 0 0 1
     , GLCommand.clear
     , GLCommand.uniform2f "iResolution" s.canvasWidth s.canvasHeight
     , GLCommand.uniform1f "iTime" time
     , GLCommand.uniform1f "iSpeed" s.params.speed
     , GLCommand.uniform1f "iZoom" s.params.zoom
     , GLCommand.uniform1f "iWarpStrength" s.params.warpStrength
     , GLCommand.uniform1f "iGlowSharpness" s.params.glowSharpness
     , GLCommand.uniform1f "iColorPhase" s.params.colorPhase
     , GLCommand.uniform1f "iIterations" s.params.iterations
     , GLCommand.drawArrays ])

/-- The `MediaRecorder.onerror` handler installed by `startExport`
(`src/unnamed/part_001` lines 327-334): reports failure in the button
text, shows `e.error?.message || 'Recording error'` in the info text,
re-enables the button, and lowers the exporting flag.  It touches
nothing else — in particular neither `recordedChunks` nor the download
list. -/
def recorderOnError (s : State) (errMessage : Option String) : State :=
  { s with
    recordText := "Export failed"
    recordInfo := errMessage.getD "Recording error"
    buttonDisabled := false
    buttonRecording := false
    isExporting := false }

/-- The first value written to the `iTime` uniform by a command list,
if any. -/
def firstTimeUniform : List GLCommand → Option ℚ
  | [] => none
  | GLCommand.uniform1f n x :: rest =>
      if n = "iTime" then some x else firstTimeUniform rest
  | _ :: rest => firstTimeUniform rest

/-- The default parameter record of the constructor
(`src/unnamed/part_001` lines 122-130). -/
def initialParams : Params :=
  { variation := "rocaille", speed := 1, zoom := 3/10, warpStrength := 1
  , glowSharpness := 1, colorPhase := 0, iterations := 10 }

/-- A playground state as the constructor leaves it (canvas size and
start mark taken as zero). -/
def initialState : State :=
  { params := initialParams, startTime := 0, isExporting := false
  , recordedChunks := [], exportFrameCount := 0, currentFrame := 0
  , canvasWidth := 0, canvasHeight := 0, buttonDisabled := false
  , buttonRecording := false, recordText := "Export Video"
  , recordInfo := "", infoActive := false, downloads := [] }

end Playground

namespace Pipeline

/-- The WebGL object state that `buildShader` touches, with program
handles modelled as numeric ids: `nextId` is the id `gl.createProgram`
would hand out next, `livePrograms` are the created-and-not-deleted
programs, `activeProgram` is the `gl.useProgram` target,
`program` / `uniformsProgram` mirror `this.program` and the program the
cached `this.uniforms` locations were resolved against, and
`consoleErrors` collects `console.error` diagnostics. -/
structure GLState where
  nextId : ℕ
  livePrograms : List ℕ
  activeProgram : Option ℕ
  program : Option ℕ
  uniformsProgram : Option ℕ
  consoleErrors : List String

/-- GL calls issued by `buildShader`, reified in order. -/
inductive GLEvent where
  | deleteProgram (p : ℕ)
  | compileVertexShader
  | compileFragmentShader (src : String)
  | linkProgram (p : ℕ)
  | useProgram (p : ℕ)
  | resolveUniforms (p : ℕ)

/-- `buildShader` (`src/shader.js` lines 170-232, identical logic in
the unnamed parts): deletes the previous program if any, compiles the
vertex shader, compiles the templated fragment shader, links, and only
on link success installs the program (`gl.useProgram`) and re-resolves
the uniform locations.  Compile/link outcomes are oracle parameters
`vsOk` / `fsOk` / `linkOk`; each failure path logs a diagnostic and
returns.  Note the source never rolls back: the old program is deleted
up front, and `this.program` is even reassigned to the unlinked new
handle on the link-failure path. -/
def buildShader (g : GLState) (variation : String) (vsOk fsOk linkOk : Bool) :
    GLState × List GLEvent :=
  let deleted : GLState :=
    match g.program with
    | some p => { g with livePrograms := g.livePrograms.erase p }
    | none => g
  let ev0 : List GLEvent :=
    match g.program with
    | some p => [GLEvent.deleteProgram p]
    | none => []
  let ev1 := ev0 ++ [GLEvent.compileVertexShader]
  if vsOk = false then
    ({ deleted with consoleErrors := deleted.consoleErrors ++ ["Vertex shader error"] }, ev1)
  else
    let ev2 := ev1 ++
      [GLEvent.compileFragmentShader (ShaderJS.generateFragmentShader variation)]
    if fsOk = false then
      ({ deleted with consoleErrors := deleted.consoleErrors ++ ["Fragment shader error"] },
       ev2)
    else
      let pid := deleted.nextId
      let linked : GLState :=
        { deleted with
            nextId := pid + 1
            livePrograms := pid :: deleted.livePrograms
            program := some pid }
      let ev3 := ev2 ++ [GLEvent.linkProgram pid]
      if linkOk = false then
        ({ linked with consoleErrors := linked.consoleErrors ++ ["Program link error"] },
         ev3)
      else
        ({ linked with activeProgram := some pid, uniformsProgram := some pid },
         ev3 ++ [GLEvent.useProgram pid, GLEvent.resolveUniforms pid])

end Pipeline

/-- `startExport` leaves in `exportFrameCount` exactly
`⌈loopDuration * 60⌉` where `loopDuration = 2π / speed`. -/
theorem startExport_frame_count (s : Playground.State) :
    (Playground.startExport s).exportFrameCount
      = ⌈(2 * Real.pi) / (s.params.speed : ℝ) * 60⌉ := rfl

/-- Helper: `⌈120π⌉ = 377`. -/
theorem ceil_120_pi : ⌈(120 : ℝ) * Real.pi⌉ = 377 := by
  rw [Int.ceil_eq_iff]
  refine ⟨?_, ?_⟩ <;> push_cast <;> linarith [Real.pi_gt_d6, Real.pi_lt_d6]

/-- Helper: `⌈60π⌉ = 189`. -/
theorem ceil_60_pi : ⌈(60 : ℝ) * Real.pi⌉ = 189 := by
  rw [Int.ceil_eq_iff]
  refine ⟨?_, ?_⟩ <;> push_cast <;> linarith [Real.pi_gt_d6, Real.pi_lt_d6]

/-- Helper: at speed 1 the computed total is 377 frames. -/
theorem startExport_frame_count_speed_one (s : Playground.State)
    (h : s.params.speed = 1) :
    (Playground.startExport s).exportFrameCount = 377 := by
  rw [startExport_frame_count, h]
  have e : (2 * Real.pi) / ((1 : ℚ) : ℝ) * 60 = 120 * Real.pi := by
    push_cast
    ring
  rw [e, ceil_120_pi]

/-- Helper: at speed 2 the computed total is 189 frames. -/
theorem startExport_frame_count_speed_two (s : Playground.State)
    (h : s.params.speed = 2) :
    (Playground.startExport s).exportFrameCount = 189 := by
  rw [startExport_frame_count, h]
  have e : (2 * Real.pi) / ((2 : ℚ) : ℝ) * 60 = 60 * Real.pi := by
    push_cast
    ring
  rw [e, ceil_60_pi]

/-- C1 (amended): starting an export computes the total frame count as
`⌈(2π / speed) * 60⌉` — the ceiling of one loop period times the
60 fps target rate; for speed 1 this is 377 frames (not 378 as the
claim reads, since `2π·60 ≈ 376.99`), and for speed 2 it is 189. -/
theorem export_frame_count_formula :
    (∀ s : Playground.State,
        (Playground.startExport s).exportFrameCount
          = ⌈(2 * Real.pi) / (s.params.speed : ℝ) * 60⌉)
    ∧ (∀ s : Playground.State, s.params.speed = 1 →
        (Playground.startExport s).exportFrameCount = 377)
    ∧ (∀ s : Playground.State, s.params.speed = 2 →
        (Playground.startExport s).exportFrameCount = 189) :=
  ⟨startExport_frame_count, startExport_frame_count_speed_one,
   startExport_frame_count_speed_two⟩

/-- Witness for C1 at the concrete speeds 1 and 2. -/
theorem export_frame_count_formula_witness :
    (Playground.startExport { Playground.initialState with
        params := { Playground.initialParams with speed := 1 } }).exportFrameCount = 377
    ∧ (Playground.startExport { Playground.initialState with
        params := { Playground.initialParams with speed := 2 } }).exportFrameCount = 189 :=
  ⟨export_frame_count_formula.2.1 _ rfl, export_frame_count_formula.2.2 _ rfl⟩

/-- Counterexample to C1 as stated: at speed 1 the computed total frame
count is not 378 (it is 377). -/
theorem export_frame_count_speed_one_ne_378 :
    (Playground.startExport { Playground.initialState with
        params := { Playground.initialParams with speed := 1 } }).exportFrameCount ≠ 378 := by
  rw [startExport_frame_count_speed_one _ rfl]
  decide

/-- C4: while exporting, frame `k` (with `k` below the total) is drawn
at the synthetic time `k / 60` exactly; the whole step is invariant
under the wall-clock instant at which the callback fires and under the
session start mark `startTime` — the synthetic time depends on the
frame index alone. -/
theorem export_synthetic_frame_time (s : Playground.State) (now now' u : ℚ) (k : ℤ)
    (hk : s.currentFrame = k) (hk0 : 0 ≤ k) (hlt : k < s.exportFrameCount) :
    Playground.firstTimeUniform (Playground.captureFramesStep s now).2
        = some ((k : ℚ) / 60)
    ∧ Playground.captureFramesStep s now' = Playground.captureFramesStep s now
    ∧ (Playground.captureFramesStep { s with startTime := u } now).2
        = (Playground.captureFramesStep s now).2 := by
  subst hk
  have hng : ¬ (s.exportFrameCount ≤ s.currentFrame) := not_le.mpr hlt
  refine ⟨?_, rfl, ?_⟩
  · simp only [Playground.captureFramesStep, if_neg hng]
    rfl
  · simp only [Playground.captureFramesStep]
    rw [if_neg hng, if_neg hng]

/-- Witness for C4 at frame index 0 of a 377-frame session. -/
theorem export_synthetic_frame_time_witness :
    Playground.firstTimeUniform
        (Playground.captureFramesStep { Playground.initialState with
            isExporting := true, exportFrameCount := 377 } 5).2
      = some (((0 : ℤ) : ℚ) / 60)
    ∧ Playground.captureFramesStep { Playground.initialState with
          isExporting := true, exportFrameCount := 377 } 9
        = Playground.captureFramesStep { Playground.initialState with
            isExporting := true, exportFrameCount := 377 } 5 :=
  ⟨(export_synthetic_frame_time _ 5 9 3 0 rfl (by decide) (by decide)).1,
   (export_synthetic_frame_time _ 5 9 3 0 rfl (by decide) (by decide)).2.1⟩

/-- C5: a click on the record button while an export session is active
is a no-op — the handler returns before `startExport`, leaving the
whole state (frame counter, total, chunk buffer, everything) unchanged.
-/
theorem start_export_reentrance_noop (s : Playground.State)
    (h : s.isExporting = true) :
    Playground.recordClick s = s := by
  simp [Playground.recordClick, h]

/-- Witness for C5 on a mid-session state. -/
theorem start_export_reentrance_noop_witness :
    Playground.recordClick { Playground.initialState with
        isExporting := true, exportFrameCount := 377, currentFrame := 12,
        recordedChunks := [1, 2] }
      = { Playground.initialState with
          isExporting := true, exportFrameCount := 377, currentFrame := 12,
          recordedChunks := [1, 2] } :=
  start_export_reentrance_noop _ rfl

/-- C6: `finishExport` at instant `now` resets the wall-clock start
mark to `now` and lowers the exporting flag, so a live `render` tick
fired at that same instant draws with the elapsed time uniform equal
to zero. -/
theorem finish_export_resets_time_origin (s : Playground.State) (now : ℚ) :
    (Playground.finishExport s now).startTime = now
    ∧ (Playground.finishExport s now).isExporting = false
    ∧ Playground.firstTimeUniform
        (Playground.renderStep (Playground.finishExport s now) now).2 = some 0 := by
  refine ⟨rfl, rfl, ?_⟩
  show some ((now - now) / 1000) = some 0
  rw [sub_self, zero_div]

/-- C7: every live `render` tick that fires while the exporting flag is
set leaves the state untouched and issues no GL command at all (it only
reschedules itself) — live rendering and export are mutually
exclusive. -/
theorem live_render_idle_while_export (s : Playground.State) (now : ℚ)
    (h : s.isExporting = true) :
    Playground.renderStep s now = (s, []) := by
  simp [Playground.renderStep, h]

/-- Witness for C7 on an exporting state. -/
theorem live_render_idle_while_export_witness :
    Playground.renderStep { Playground.initialState with isExporting := true } 5
      = ({ Playground.initialState with isExporting := true }, []) :=
  live_render_idle_while_export _ 5 rfl

/-- C8 (amended): the recorder's `onerror` handler aborts the session —
exporting flag cleared, record button re-enabled and de-highlighted,
failure text and the error message shown, and no download triggered —
but it does NOT discard the partial chunk buffer: `recordedChunks` is
left exactly as it was (it is only cleared by the next `startExport`
or by a successful `finishExport`). -/
theorem recorder_error_aborts_session (s : Playground.State) (err : Option String) :
    (Playground.recorderOnError s err).isExporting = false
    ∧ (Playground.recorderOnError s err).buttonDisabled = false
    ∧ (Playground.recorderOnError s err).buttonRecording = false
    ∧ (Playground.recorderOnError s err).recordText = "Export failed"
    ∧ (Playground.recorderOnError s err).recordInfo = err.getD "Recording error"
    ∧ (Playground.recorderOnError s err).downloads = s.downloads
    ∧ (Playground.recorderOnError s err).recordedChunks = s.recordedChunks :=
  ⟨rfl, rfl, rfl, rfl, rfl, rfl, rfl⟩

/-- Counterexample to C8 as stated: after an encoder error the partial
encoded output is not discarded — a session holding one recorded chunk
still holds it after the `onerror` handler runs. -/
theorem recorder_error_retains_chunks :
    (Playground.recorderOnError { Playground.initialState with
        isExporting := true, recordedChunks := [0] } (some "boom")).recordedChunks = [0]
    ∧ ([0] : List ℕ) ≠ [] :=
  ⟨rfl, by decide⟩

/-- C9: rebuilding the pipeline first deletes the previously active
program (the very first GL call, before any compilation), and on any
compile or link failure it returns having logged one more diagnostic,
with the cached uniform locations and the installed (`useProgram`)
program unchanged — and no rollback: the old program stays deleted even
though the new one never became usable. -/
theorem build_shader_failure_policy (g : Pipeline.GLState) (variation : String)
    (vsOk fsOk linkOk : Bool) (p : ℕ)
    (hp : g.program = some p)
    (hnd : g.livePrograms.Nodup)
    (hplt : p < g.nextId) :
    (Pipeline.buildShader g variation vsOk fsOk linkOk).2.head?
        = some (Pipeline.GLEvent.deleteProgram p)
    ∧ p ∉ (Pipeline.buildShader g variation vsOk fsOk linkOk).1.livePrograms
    ∧ ((vsOk = false ∨ fsOk = false ∨ linkOk = false) →
        (Pipeline.buildShader g variation vsOk fsOk linkOk).1.uniformsProgram
            = g.uniformsProgram
        ∧ (Pipeline.buildShader g variation vsOk fsOk linkOk).1.activeProgram
            = g.activeProgram
        ∧ g.consoleErrors.length
            < (Pipeline.buildShader g variation vsOk fsOk linkOk).1.consoleErrors.length) := by
  have hne : p ∉ g.livePrograms.erase p := hnd.not_mem_erase
  have hnp : p ≠ g.nextId := Nat.ne_of_lt hplt
  rcases vsOk <;> rcases fsOk <;> rcases linkOk <;>
    simp [Pipeline.buildShader, hp, hne, hnp]

/-- Witness for C9: a state with one live program, failing at the
vertex-compile stage. -/
theorem build_shader_failure_policy_witness :
    (Pipeline.buildShader ⟨1, [0], some 0, some 0, some 0, []⟩ "rocaille"
        false true true).2.head? = some (Pipeline.GLEvent.deleteProgram 0)
    ∧ (0 : ℕ) ∉ (Pipeline.buildShader ⟨1, [0], some 0, some 0, some 0, []⟩ "rocaille"
        false true true).1.livePrograms
    ∧ (Pipeline.buildShader ⟨1, [0], some 0, some 0, some 0, []⟩ "rocaille"
        false true true).1.uniformsProgram = some 0 := by
  have h := build_shader_failure_policy ⟨1, [0], some 0, some 0, some 0, []⟩ "rocaille"
    false true true 0 rfl (by decide) (by decide)
  exact ⟨h.1, h.2.1, (h.2.2 (Or.inl rfl)).1⟩
